import Mathlib

/-!
Verification of the two tutorial notebooks of this repository
(`docs/docs/how_to/hybrid.ipynb` and
`docs/docs/how_to/output_parser_structured.ipynb`) against their
natural-language specification.

The only repository-defined executable logic is the `Joke` pydantic schema
together with its `question_ends_with_question_mark` pre-validator; the rest
of each notebook is a straight-line sequence of cells whose literal inputs
and recorded outputs we transcribe as concrete data and check structurally.
-/

namespace LangchainDocs

/-- A Python `dict` with string keys and string values, as it appears in the
notebooks (the validator input, search-kwargs dictionaries, streamed JSON
objects), modelled as an association list keyed by the first occurrence. -/
abbrev StrDict := List (String × String)

/-- Python `values.get(key)`: the value at `key`, or `None` when absent. -/
def dictGet (d : StrDict) (k : String) : Option String :=
  (d.find? (fun kv => kv.1 == k)).map (fun kv => kv.2)

/-- Python truthiness of an optional string: `None` and `""` are falsy,
every non-empty string is truthy. -/
def pyTruthy : Option String → Bool
  | none => false
  | some s => s != ""

/-- The test `setup and setup[-1] != "?"` of the validator, on the optional
`setup` value: truthy and with last character different from `'?'`. -/
def setupRejected (setup : Option String) : Bool :=
  pyTruthy setup && ((setup.getD "").data.getLast? != some '?')

/-- The `Joke` pre-validator from `output_parser_structured.ipynb`:

```python
@model_validator(mode="before")
@classmethod
def question_ends_with_question_mark(cls, values: dict) -> dict:
    setup = values.get("setup")
    if setup and setup[-1] != "?":
        raise ValueError("Badly formed question!")
    return values
```

`raise ValueError(msg)` is modelled as `Except.error msg`, falling through
to `return values` as `Except.ok values`. -/
def question_ends_with_question_mark (values : StrDict) : Except String StrDict :=
  if setupRejected (dictGet values "setup") then
    Except.error "Badly formed question!"
  else
    Except.ok values

/-- Whether the validator accepts (returns) rather than raises. -/
def exceptAccepts : Except String StrDict → Bool
  | Except.ok _ => true
  | Except.error _ => false

/-- A pair of field values is admissible for the `Joke` schema exactly when
the pre-validator, run on the corresponding input dict, returns instead of
raising (both declared fields are of type `str`, so no further field-level
validation constrains string values). -/
def admissibleJoke (setup punchline : String) : Bool :=
  exceptAccepts
    (question_ends_with_question_mark [("setup", setup), ("punchline", punchline)])

/-- The type of a declared schema field. Both `Joke` fields are declared
with the Python type `str`. -/
inductive FieldType where
  | string
deriving DecidableEq

/-- A declared pydantic field: name, type and `Field(description=...)`. -/
structure SchemaField where
  name : String
  type : FieldType
  description : String
deriving DecidableEq

/-- The field declarations of the `Joke` schema, transcribed from

```python
class Joke(BaseModel):
    setup: str = Field(description="question to set up a joke")
    punchline: str = Field(description="answer to resolve the joke")
```
-/
def jokeSchemaFields : List SchemaField :=
  [⟨"setup", FieldType.string, "question to set up a joke"⟩,
   ⟨"punchline", FieldType.string, "answer to resolve the joke"⟩]

/-- An instance of the `Joke` schema: one value per declared field. -/
structure Joke where
  setup : String
  punchline : String
deriving DecidableEq

/-- The three literal texts inserted by `vectorstore.add_texts` in
`hybrid.ipynb`, in insertion order. -/
def insertedTexts : List String :=
  ["In 2023, I visited Paris",
   "In 2022, I visited New York",
   "In 2021, I visited New Orleans"]

/-- The recorded output of the standard retrieval call
`vectorstore.as_retriever().invoke("What city did I visit last?")`. -/
def recordedStandardResults : List String :=
  ["In 2022, I visited New York",
   "In 2023, I visited Paris",
   "In 2021, I visited New Orleans"]

/-- The recorded output of the keyword-filtered retrieval call
`vectorstore.as_retriever(search_kwargs={"body_search": "new"}).invoke(...)`. -/
def recordedFilteredResults : List String :=
  ["In 2022, I visited New York",
   "In 2021, I visited New Orleans"]

/-- ASCII lowercasing of one character, as a text analyzer applies it. -/
def lowerChar (c : Char) : Char :=
  if c.toNat ≥ 65 && c.toNat ≤ 90 then Char.ofNat (c.toNat + 32) else c

/-- Split a character list into whitespace-separated tokens (accumulator
holds the current token reversed). -/
def splitTokens : List Char → List Char → List (List Char)
  | [], acc => [acc.reverse]
  | c :: cs, acc =>
      if c == ' ' then acc.reverse :: splitTokens cs []
      else splitTokens cs (c :: acc)

/-- Modelled from the spec: the external vector database's keyword/full-text
term filtering ("Hybrid search: combining vector-similarity search with
keyword/full-text filtering"), whose implementation (the Astra DB
`body_search` standard index analyzer) is not part of this repository: a
record matches a term when its lowercased whitespace-tokenization contains
the term. -/
def containsTerm (term : String) (s : String) : Bool :=
  (splitTokens (s.data.map lowerChar) []).contains term.data

/-- Modelled from the spec: the configurable-field mechanism of the
orchestration library (not under `src/`), which "merely passes a dictionary
of search parameters through to an external database client": the search
kwargs the retriever uses are the configured dictionary when one is supplied
at call time, and the retriever's default otherwise. -/
def resolveSearchKwargs (configured : Option StrDict) (dflt : StrDict) : StrDict :=
  match configured with
  | some d => d
  | none => dflt

/-- One top-level operation of the `hybrid.ipynb` call sequence. -/
inductive HybridOp where
  | initConnection
  | createVectorStore
  | addTexts (texts : List String)
  | retrieve (searchKwargs : Option StrDict) (query : String)
  | composeChain
  | invokeChain (config : Option StrDict) (query : String)
deriving DecidableEq

/-- The kind of a hybrid-notebook operation, forgetting its arguments. -/
inductive HybridOpKind where
  | initConnection
  | createVectorStore
  | addTexts
  | retrieve
  | composeChain
  | invokeChain
deriving DecidableEq

/-- Forget an operation's arguments. -/
def hybridOpKind : HybridOp → HybridOpKind
  | HybridOp.initConnection => HybridOpKind.initConnection
  | HybridOp.createVectorStore => HybridOpKind.createVectorStore
  | HybridOp.addTexts _ => HybridOpKind.addTexts
  | HybridOp.retrieve _ _ => HybridOpKind.retrieve
  | HybridOp.composeChain => HybridOpKind.composeChain
  | HybridOp.invokeChain _ _ => HybridOpKind.invokeChain

/-- The straight-line sequence of operations executed by the code cells of
`hybrid.ipynb`, in cell order: `cassio.init(...)`; `Cassandra(...)`;
`vectorstore.add_texts([...])`; the unfiltered and the `body_search`-filtered
retrieval; the chain composition; and the two chain invocations (without and
with a `search_kwargs` configuration). -/
def hybridNotebookOps : List HybridOp :=
  [HybridOp.initConnection,
   HybridOp.createVectorStore,
   HybridOp.addTexts insertedTexts,
   HybridOp.retrieve none "What city did I visit last?",
   HybridOp.retrieve (some [("body_search", "new")]) "What city did I visit last?",
   HybridOp.composeChain,
   HybridOp.invokeChain none "What city did I visit last?",
   HybridOp.invokeChain (some [("body_search", "new")]) "What city did I visit last?"]

/-- Total number of texts inserted across all `addTexts` operations. -/
def insertedTextCount : List HybridOp → Nat
  | [] => 0
  | HybridOp.addTexts ts :: rest => ts.length + insertedTextCount rest
  | _ :: rest => insertedTextCount rest

/-- The keyword filters of the retrieval calls, in order. -/
def retrievalFilters (ops : List HybridOp) : List (Option StrDict) :=
  ops.filterMap (fun op => match op with
    | HybridOp.retrieve kw _ => some kw
    | _ => none)

/-- The runtime configuration values of the chain invocations, in order. -/
def invokeConfigs (ops : List HybridOp) : List (Option StrDict) :=
  ops.filterMap (fun op => match op with
    | HybridOp.invokeChain cfg _ => some cfg
    | _ => none)

/-- A public operation of an output parser. -/
inductive ParserMethod where
  | getFormatInstructions
  | invoke
  | parse
  | parseWithPrompt
  | stream
deriving DecidableEq

/-- The method calls made directly on the `parser` object in
`output_parser_structured.ipynb`, in source order:
`parser.get_format_instructions()` (inside `partial_variables`), and the two
occurrences of `parser.invoke(output)`. -/
def directParserMethodCalls : List ParserMethod :=
  [ParserMethod.getFormatInstructions, ParserMethod.invoke, ParserMethod.invoke]

/-- The recorded result of `parser.invoke(output)` on the complete model
output: `Joke(setup='Why did the tomato turn red?', punchline='Because it
saw the salad dressing!')`. -/
def recordedParsedJoke : Joke :=
  ⟨"Why did the tomato turn red?", "Because it saw the salad dressing!"⟩

/-- The recorded streamed sequence of `list(chain.stream({"query": "Tell me
a joke."}))`: partial `Joke` values with a growing punchline. -/
def jokeStream : List Joke :=
  [⟨"Why did the tomato turn red?", ""⟩,
   ⟨"Why did the tomato turn red?", "Because"⟩,
   ⟨"Why did the tomato turn red?", "Because it"⟩,
   ⟨"Why did the tomato turn red?", "Because it saw"⟩,
   ⟨"Why did the tomato turn red?", "Because it saw the"⟩,
   ⟨"Why did the tomato turn red?", "Because it saw the salad"⟩,
   ⟨"Why did the tomato turn red?", "Because it saw the salad dressing"⟩,
   ⟨"Why did the tomato turn red?", "Because it saw the salad dressing!"⟩]

/-- The recorded streamed sequence of
`list(json_chain.stream({"question": "Who invented the microscope?"}))`:
partial JSON objects with a growing `answer` value. -/
def jsonStream : List StrDict :=
  [[],
   [("answer", "")],
   [("answer", "Ant")],
   [("answer", "Anton")],
   [("answer", "Antonie")],
   [("answer", "Antonie van")],
   [("answer", "Antonie van Lee")],
   [("answer", "Antonie van Leeu")],
   [("answer", "Antonie van Leeuwen")],
   [("answer", "Antonie van Leeuwenho")],
   [("answer", "Antonie van Leeuwenhoek")]]

/-- Character-list prefix test: the first list is an initial segment of the
second. -/
def strPrefixOf : List Char → List Char → Bool
  | [], _ => true
  | _ :: _, [] => false
  | a :: as, b :: bs => a == b && strPrefixOf as bs

/-- One streamed step of `Joke` values is monotone when both string fields
of the earlier value are prefixes of the later value's fields. -/
def jokeStepMono (a b : Joke) : Bool :=
  strPrefixOf a.setup.data b.setup.data && strPrefixOf a.punchline.data b.punchline.data

/-- One streamed step of JSON objects is monotone when every field of the
earlier object is present in the later one with a prefix of its value. -/
def dictStepMono (a b : StrDict) : Bool :=
  a.all (fun kv => match dictGet b kv.1 with
    | some v => strPrefixOf kv.2.data v.data
    | none => false)

/-- Every adjacent pair of a list satisfies the step relation. -/
def stepwise (r : α → α → Bool) : List α → Bool
  | [] => true
  | [_] => true
  | a :: b :: rest => r a b && stepwise r (b :: rest)

/-- `setupRejected` holds exactly on non-empty strings not ending in `'?'`. -/
theorem setupRejected_iff (o : Option String) :
    setupRejected o = true ↔
      ∃ s, o = some s ∧ s ≠ "" ∧ s.data.getLast? ≠ some '?' := by
  cases o with
  | none => simp [setupRejected, pyTruthy]
  | some s =>
      simp [setupRejected, pyTruthy, Bool.and_eq_true, bne_iff_ne]

/-- Specialization of `setupRejected_iff` to a present setup value. -/
theorem setupRejected_some_iff (s : String) :
    setupRejected (some s) = true ↔ s ≠ "" ∧ s.data.getLast? ≠ some '?' := by
  simp [setupRejected, pyTruthy, Bool.and_eq_true, bne_iff_ne]

/-- C1: for the three inserted records, the retrieval call with keyword
filter `{"body_search": "new"}` returns exactly the records containing the
term "new" — the New York and New Orleans records, in that order — while the
standard retrieval call returns all three records: the recorded filtered
output equals the term-filter of the inserted texts in insertion order, and
the recorded standard output is a permutation of all three inserted texts. -/
theorem hybrid_retrieval_recorded_outputs :
    recordedFilteredResults = insertedTexts.filter (containsTerm "new") ∧
    recordedStandardResults.Perm insertedTexts := by
  constructor
  · decide
  · decide

/-- C2 counterexample: it is not the case that every pair of string values
yields an admissible `Joke` instance — the pre-validator rejects a setup that
is non-empty and does not end with a question mark. -/
theorem joke_no_invariant_counterexample :
    ¬ (∀ setup punchline : String, admissibleJoke setup punchline = true) :=
  fun h => absurd (h "Tell me a joke" "ha") (by decide)

/-- C2 (amended): the `Joke` schema does carry one validation invariant,
imposed by its pre-validator: a pair of string field values is admissible if
and only if the setup is empty or its last character is `'?'`; the punchline
is unconstrained. -/
theorem joke_admissible_iff (setup punchline : String) :
    admissibleJoke setup punchline = true ↔
      (setup = "" ∨ setup.data.getLast? = some '?') := by
  have hget : dictGet [("setup", setup), ("punchline", punchline)] "setup" = some setup := rfl
  unfold admissibleJoke question_ends_with_question_mark
  rw [hget]
  by_cases h : setupRejected (some setup) = true
  · rw [if_pos h]
    simp only [exceptAccepts, Bool.false_eq_true, false_iff]
    have hc := (setupRejected_some_iff setup).mp h
    tauto
  · rw [if_neg h]
    simp only [exceptAccepts, true_iff]
    have hc : ¬ (setup ≠ "" ∧ setup.data.getLast? ≠ some '?') :=
      fun hx => h ((setupRejected_some_iff setup).mpr hx)
    tauto

/-- C2 witness: the concrete admissible instance with setup ending in `'?'`,
obtained by applying the amended theorem. -/
theorem joke_admissible_iff_witness :
    admissibleJoke "Why did the chicken cross the road?" "To get to the other side." = true :=
  (joke_admissible_iff "Why did the chicken cross the road?" "To get to the other side.").mpr
    (Or.inr (by decide))

/-- C3 counterexample: it is not the case that every repository-defined
function returns its input unchanged regardless of its value — the
pre-validator does not return this input unchanged. -/
theorem no_branching_counterexample :
    ¬ (∀ values : StrDict,
        question_ends_with_question_mark values = Except.ok values) := by
  intro h
  have h1 := h [("setup", "Tell me about Paris")]
  have h2 : exceptAccepts
      (question_ends_with_question_mark [("setup", "Tell me about Paris")]) = false := rfl
  rw [h1] at h2
  simp [exceptAccepts] at h2

/-- C3 (amended): one repository-defined function, the `Joke` pre-validator,
does branch on a conditional test of its input: it returns the input dict
unchanged precisely when no setup entry is present that is non-empty and
lacks a trailing `'?'`; on every other input its effect is to raise. -/
theorem validator_branches_on_input (values : StrDict) :
    question_ends_with_question_mark values = Except.ok values ↔
      ¬ (∃ s, dictGet values "setup" = some s ∧ s ≠ "" ∧
          s.data.getLast? ≠ some '?') := by
  unfold question_ends_with_question_mark
  by_cases h : setupRejected (dictGet values "setup") = true
  · rw [if_pos h]
    constructor
    · intro he
      exact absurd he (by simp)
    · intro hn
      exact absurd ((setupRejected_iff _).mp h) hn
  · rw [if_neg h]
    constructor
    · intro _ hex
      exact h ((setupRejected_iff _).mpr hex)
    · intro _
      rfl

/-- C3 witness: the pre-validator returns this concrete well-formed input
unchanged, by the amended theorem. -/
theorem validator_branches_on_input_witness :
    question_ends_with_question_mark [("setup", "Why?")] =
      Except.ok [("setup", "Why?")] :=
  (validator_branches_on_input [("setup", "Why?")]).mpr (by
    rintro ⟨s, hs, hne, hlast⟩
    have hv : some "Why?" = some s := hs
    cases hv
    exact hlast (by decide))

/-- C4 counterexample: it is not the case that repository-defined code never
raises — the pre-validator raises `ValueError("Badly formed question!")` on
this input. -/
theorem no_repo_error_counterexample :
    ¬ (∀ values : StrDict, ∀ msg : String,
        question_ends_with_question_mark values ≠ Except.error msg) := by
  intro h
  exact h [("setup", "Knock knock")] "Badly formed question!" rfl

/-- C4 (amended): the repository's own code does implement one error-raising
path: the `Joke` pre-validator raises `ValueError("Badly formed question!")`
whenever the setup value is present, non-empty, and does not end with `'?'`. -/
theorem repo_validator_raises (values : StrDict) (s : String)
    (h1 : dictGet values "setup" = some s) (h2 : s ≠ "")
    (h3 : s.data.getLast? ≠ some '?') :
    question_ends_with_question_mark values = Except.error "Badly formed question!" := by
  have hr : setupRejected (dictGet values "setup") = true := by
    rw [h1]
    exact (setupRejected_some_iff s).mpr ⟨h2, h3⟩
  unfold question_ends_with_question_mark
  rw [if_pos hr]

/-- C4 witness: the amended theorem applied at a concrete bad input. -/
theorem repo_validator_raises_witness :
    question_ends_with_question_mark [("setup", "Knock knock"), ("punchline", "Boo")] =
      Except.error "Badly formed question!" :=
  repo_validator_raises [("setup", "Knock knock"), ("punchline", "Boo")] "Knock knock"
    rfl (by decide) (by decide)

/-- C5: the pre-validator raises `ValueError("Badly formed question!")` if
and only if the dict's setup value is a non-empty string whose last
character is not `'?'`, and in every other case (setup absent, empty, or
ending in `'?'`) it returns the input dict unchanged. -/
theorem joke_validator_raises_iff (values : StrDict) :
    (question_ends_with_question_mark values = Except.error "Badly formed question!" ↔
      ∃ s, dictGet values "setup" = some s ∧ s ≠ "" ∧
        s.data.getLast? ≠ some '?') ∧
    ((¬ ∃ s, dictGet values "setup" = some s ∧ s ≠ "" ∧
        s.data.getLast? ≠ some '?') →
      question_ends_with_question_mark values = Except.ok values) := by
  unfold question_ends_with_question_mark
  by_cases h : setupRejected (dictGet values "setup") = true
  · rw [if_pos h]
    exact ⟨⟨fun _ => (setupRejected_iff _).mp h, fun _ => rfl⟩,
           fun hn => absurd ((setupRejected_iff _).mp h) hn⟩
  · rw [if_neg h]
    refine ⟨⟨fun he => absurd he (by simp), fun hex => absurd ((setupRejected_iff _).mpr hex) h⟩,
           fun _ => rfl⟩

/-- C5 witness: the theorem applied at a concrete input whose setup is
non-empty and does not end with `'?'`, showing the raise. -/
theorem joke_validator_raises_iff_witness :
    question_ends_with_question_mark [("setup", "Tell me a joke")] =
      Except.error "Badly formed question!" :=
  (joke_validator_raises_iff [("setup", "Tell me a joke")]).1.mpr
    ⟨"Tell me a joke", rfl, by decide, by decide⟩

/-- C6: the method calls made directly on the parser object in the
structured-output example exercise exactly two public operations:
`get_format_instructions` and `invoke`; every direct parser call is one of
these two, and both occur. -/
theorem parser_methods_exercised :
    (ParserMethod.getFormatInstructions ∈ directParserMethodCalls ∧
     ParserMethod.invoke ∈ directParserMethodCalls) ∧
    ∀ m ∈ directParserMethodCalls,
      m = ParserMethod.getFormatInstructions ∨ m = ParserMethod.invoke := by
  decide

/-- C7: the hybrid-search sequence, in cell order, initializes the external
database connection and store, inserts exactly three literal text records,
issues exactly two retrieval calls with distinct keyword filters, composes
the pipeline, and invokes it exactly twice with distinct runtime
configuration values. -/
theorem hybrid_sequence_shape :
    hybridNotebookOps.map hybridOpKind =
      [HybridOpKind.initConnection, HybridOpKind.createVectorStore,
       HybridOpKind.addTexts, HybridOpKind.retrieve, HybridOpKind.retrieve,
       HybridOpKind.composeChain, HybridOpKind.invokeChain,
       HybridOpKind.invokeChain] ∧
    insertedTextCount hybridNotebookOps = 3 ∧
    (retrievalFilters hybridNotebookOps).length = 2 ∧
    (retrievalFilters hybridNotebookOps).Nodup ∧
    (invokeConfigs hybridNotebookOps).length = 2 ∧
    (invokeConfigs hybridNotebookOps).Nodup := by
  decide

/-- C8: the search-kwargs dictionary supplied at call time reaches the
retriever's search call unchanged: the resolved kwargs are exactly the
configured dictionary, entry for entry, and in particular the notebook's
`{"body_search": "new"}` passes through as-is. -/
theorem search_kwargs_passed_through (d dflt : StrDict) :
    resolveSearchKwargs (some d) dflt = d ∧
    (∀ k, dictGet (resolveSearchKwargs (some d) dflt) k = dictGet d k) ∧
    resolveSearchKwargs (some [("body_search", "new")]) [] = [("body_search", "new")] :=
  ⟨rfl, fun _ => rfl, rfl⟩

/-- C9: both recorded streamed partial-parsing sequences are monotone — each
element's string field values are prefixes of the corresponding field values
of the next element — and the final streamed `Joke` equals the recorded
result of invoking the parser on the complete model output (the final
streamed JSON object likewise carries the complete answer value). -/
theorem streamed_partial_parses_monotone :
    stepwise jokeStepMono jokeStream = true ∧
    stepwise dictStepMono jsonStream = true ∧
    jokeStream.getLast? = some recordedParsedJoke ∧
    jsonStream.getLast? = some [("answer", "Antonie van Leeuwenhoek")] := by
  decide

/-- C10: the `Joke` schema declares exactly two fields, named `setup` and
`punchline` in that order, and both are of string type. -/
theorem joke_schema_two_string_fields :
    jokeSchemaFields.length = 2 ∧
    jokeSchemaFields.map SchemaField.name = ["setup", "punchline"] ∧
    ∀ f ∈ jokeSchemaFields, f.type = FieldType.string := by
  decide

end LangchainDocs
